import Mathlib

/-
Verification of the training orchestrator in examples/simple_trainer.py.

The file shallowly embeds the pieces of the trainer the claims speak about:
the Retinex decomposition of Runner.get_retinex_output, the loss composition
of Runner.retinex_train_step, the scene-state and optimizer bookkeeping
around create_splats_with_optimizers and the density-adaptation strategy
calls, the optimizer hyper-parameter scaling, the main-loop loss mixing, the
dual rasterization output unpacking, the configuration-enum validation, and
the per-step filesystem write events. Tensor arithmetic is modelled over the
real numbers, pixelwise where the Python code acts pixelwise.
-/

namespace GsplatTrainer

/- ### Retinex decomposition: Runner.get_retinex_output

Per scalar of the working color space (an RGB channel, or the value channel
in HSV mode).  The source computes
  log_input_image        = log(x + eps)
  log_illumination_map   = L                      (network output)
  illumination_map       = clamp(exp L, min=1e-5)
  log_reflectance_target = log_input_image - log_illumination_map
  reflectance_map        = clamp(exp log_reflectance_target, 0, 1). -/

/-- Illumination map value: `torch.clamp(torch.exp(log_illumination_map), min=1e-5)`. -/
noncomputable def illumination_map (L : ℝ) : ℝ :=
  max (Real.exp L) 1e-5

/-- Reflectance value in the working color space:
`torch.clamp(torch.exp(log(x + eps) - log_illumination_map), 0, 1)`.
Note the subtraction uses the raw `log_illumination_map`, not the log of the
floor-clamped illumination. -/
noncomputable def reflectance_working (x eps L : ℝ) : ℝ :=
  min (max (Real.exp (Real.log (x + eps) - L)) 0) 1

/- ### Loss composition: Runner.retinex_train_step -/

/-- Pointwise `torch.relu`. -/
noncomputable def relu (x : ℝ) : ℝ := max x 0

/-- Reflectance clipping penalty, high side:
`torch.mean(torch.relu(reflectance_map - 0.98)**2)`. -/
noncomputable def loss_clipping_high (R : List ℝ) : ℝ :=
  (R.map fun r => relu (r - 0.98) ^ 2).sum / (R.length : ℝ)

/-- Reflectance clipping penalty, low side:
`torch.mean(torch.relu(0.02 - reflectance_map)**2)`. -/
noncomputable def loss_clipping_low (R : List ℝ) : ℝ :=
  (R.map fun r => relu (0.02 - r) ^ 2).sum / (R.length : ℝ)

/-- The 12-term weighted loss of `retinex_train_step` before the clipping
penalty.  The dynamic (Kendall) branch is taken when
`cfg.enable_dynamic_weights and cfg.multi_scale_retinex`; it computes
`term1 = (base_lambdas * individual_losses * exp(-log_vars) / 2.0).sum()`
and `term2 = (0.5 * log_vars).sum()`, otherwise the fixed branch computes
`(base_lambdas * individual_losses).sum()`. -/
noncomputable def retinex_base_loss (enableDynamicWeights multiScaleRetinex : Bool)
    (base_lambdas individual_losses log_vars : Fin 12 → ℝ) : ℝ :=
  if enableDynamicWeights && multiScaleRetinex then
    (∑ i, base_lambdas i * individual_losses i * Real.exp (-(log_vars i)) / 2) +
      ∑ i, 0.5 * log_vars i
  else
    ∑ i, base_lambdas i * individual_losses i

/-- The returned total of `retinex_train_step`: the weighted 12-term loss plus
`lambda_clipping * (loss_clipping_high + loss_clipping_low)` with
`lambda_clipping = 1.`. -/
noncomputable def retinex_total_loss (enableDynamicWeights multiScaleRetinex : Bool)
    (base_lambdas individual_losses log_vars : Fin 12 → ℝ) (R : List ℝ) : ℝ :=
  retinex_base_loss enableDynamicWeights multiScaleRetinex
      base_lambdas individual_losses log_vars +
    1 * (loss_clipping_high R + loss_clipping_low R)

/- ### SceneState parameter groups: create_splats_with_optimizers

The params list always holds means, scales, quats, opacities, then either
sh0/shN (feature_dim is None) or features/colors, then adjust_k and adjust_b
(appended unconditionally); one optimizer is built per entry of that list. -/

/-- Names of the parameter groups `create_splats_with_optimizers` puts into the
`ParameterDict`, in source order. -/
def create_splats_group_names (featureDim : Option ℕ) : List String :=
  ["means", "scales", "quats", "opacities"] ++
    (match featureDim with
      | none => ["sh0", "shN"]
      | some _ => ["features", "colors"]) ++
    ["adjust_k", "adjust_b"]

/-- Names of the per-group optimizers: the comprehension
`{name: optimizer_class(...) for name, _, lr in params}` builds one optimizer
per parameter group. -/
def splats_optimizer_names (featureDim : Option ℕ) : List String :=
  create_splats_group_names featureDim

/-- Groups as built by `Runner.__init__`: `feature_dim = 32 if cfg.app_opt else
None` is the only configuration input; the call does not depend on
`cfg.enable_retinex` (the unused first argument records that). -/
def runner_splat_groups (_enableRetinex appOpt : Bool) : List String :=
  create_splats_group_names (if appOpt then some 32 else none)

/-- Whether `Runner.rasterize_splats` reads `splats["adjust_k"]` and
`splats["adjust_b"]`: only in the retinex-enabled branch when
`cfg.use_illum_opt` is off. -/
def rasterize_uses_adjust (enableRetinex useIllumOpt : Bool) : Bool :=
  enableRetinex && !useIllumOpt

/- ### Scene-state / optimizer-state alignment through training

The leading dimension (Gaussian count) of every parameter group, and of every
optimizer's internal per-parameter moment buffers, as the training loop runs.
The DefaultStrategy / MCMCStrategy implementations are not part of the staged
sources, so their mutation is modelled from the spec. -/

/-- Leading dimensions of the scene parameter groups and of the optimizers'
internal state buffers (one row count per group). -/
structure TrainState where
  params : List (String × ℕ)
  optRows : List (String × ℕ)

/-- Every listed group has leading dimension `n`. -/
def aligned_groups (l : List (String × ℕ)) (n : ℕ) : Prop :=
  ∀ p ∈ l, p.2 = n

/-- SceneState and all optimizer state buffers share the leading dimension `n`. -/
def state_aligned (s : TrainState) (n : ℕ) : Prop :=
  aligned_groups s.params n ∧ aligned_groups s.optRows n

/-- The two ways the training loop touches scene state between renders:
a density-adaptation strategy mutation, or an `optimizer.step()`. -/
inductive TrainOp where
  | strategyMutate (newCount : ℕ)
  | optimizerStep

/-- Modelled from the spec: a DensityAdaptationStrategy mutation
(split/clone/prune/relocate) resizes every parameter group and every
optimizer's moment buffers consistently to the new Gaussian count (new rows
get fresh optimizer state; removed rows' state is dropped), while an
optimizer step performs gradient descent on values and never changes shapes. -/
def applyOp (s : TrainState) : TrainOp → TrainState
  | TrainOp.strategyMutate m =>
      { params := s.params.map fun p => (p.1, m)
        optRows := s.optRows.map fun p => (p.1, m) }
  | TrainOp.optimizerStep => s

/-- Fold a sequence of training operations over the state. -/
def applyOps (s : TrainState) (ops : List TrainOp) : TrainState :=
  ops.foldl applyOp s

/-- The Gaussian count an operation leaves behind. -/
def op_count (n : ℕ) : TrainOp → ℕ
  | TrainOp.strategyMutate m => m
  | TrainOp.optimizerStep => n

/-- Gaussian count after a sequence of operations, starting from `n`. -/
def gauss_count_after (n : ℕ) (ops : List TrainOp) : ℕ :=
  ops.foldl op_count n

/-- The state right after `create_splats_with_optimizers`: every group of the
params list (and the optimizer built over it) has `N = points.shape[0]` rows. -/
def init_train_state (featureDim : Option ℕ) (n : ℕ) : TrainState :=
  { params := (create_splats_group_names featureDim).map fun g => (g, n)
    optRows := (create_splats_group_names featureDim).map fun g => (g, n) }

/- ### Optimizer hyper-parameter scaling: create_splats_with_optimizers

`BS = batch_size * world_size`; each group's optimizer is built with
`lr * math.sqrt(BS)`, `eps = 1e-15 / math.sqrt(BS)` and
`betas = (1 - BS * (1 - 0.9), 1 - BS * (1 - 0.999))`. -/

/-- The Adam hyper-parameters of one scene-parameter-group optimizer. -/
structure AdamHyper where
  lr : ℝ
  eps : ℝ
  beta1 : ℝ
  beta2 : ℝ

/-- Hyper-parameters `create_splats_with_optimizers` passes to the optimizer
class for a group with base learning rate `lr0`. -/
noncomputable def splats_adam_hyper (lr0 : ℝ) (batchSize worldSize : ℕ) : AdamHyper :=
  { lr := lr0 * Real.sqrt (batchSize * worldSize)
    eps := 1e-15 / Real.sqrt (batchSize * worldSize)
    beta1 := 1 - (batchSize * worldSize : ℝ) * (1 - 0.9)
    beta2 := 1 - (batchSize * worldSize : ℝ) * (1 - 0.999) }

/- ### Main-loop loss mixing with forward-mode derivatives

Scalars carry a tangent (value, derivative) so that `.detach()` — which cuts
the gradient while keeping the value — is observable.  The derivative is
taken with respect to one scalar parameter; seeding the reflectance target's
tangent with 1 and every other input's with 0 reads off the gradient that
flows into the reflectance target. -/

/-- Dual-number addition. -/
def dAdd (a b : ℝ × ℝ) : ℝ × ℝ := (a.1 + b.1, a.2 + b.2)

/-- Dual-number subtraction. -/
def dSub (a b : ℝ × ℝ) : ℝ × ℝ := (a.1 - b.1, a.2 - b.2)

/-- Dual-number multiplication. -/
def dMul (a b : ℝ × ℝ) : ℝ × ℝ := (a.1 * b.1, a.2 * b.1 + a.1 * b.2)

/-- Dual-number division. -/
noncomputable def dDiv (a b : ℝ × ℝ) : ℝ × ℝ :=
  (a.1 / b.1, (a.2 * b.1 - a.1 * b.2) / b.1 ^ 2)

/-- Multiplication by a configuration constant (a float with no gradient). -/
def dScale (c : ℝ) (a : ℝ × ℝ) : ℝ × ℝ := (c * a.1, c * a.2)

/-- A constant with no gradient. -/
def dConst (c : ℝ) : ℝ × ℝ := (c, 0)

/-- Dual-number absolute value; the tangent follows `torch.abs`'s subgradient
`sign(x)` (zero at zero). -/
noncomputable def dAbs (a : ℝ × ℝ) : ℝ × ℝ := (|a.1|, Real.sign a.1 * a.2)

/-- `Tensor.detach()`: same value, gradient cut. -/
def detach (a : ℝ × ℝ) : ℝ × ℝ := (a.1, 0)

/-- `F.l1_loss` on a single working scalar. -/
noncomputable def l1_loss (a b : ℝ × ℝ) : ℝ × ℝ := dAbs (dSub a b)

/-- Structural similarity between two constant (single-valued) images with
`data_range=1.0`: the variance terms vanish, the `C2` factor cancels, leaving
`(2*x*y + C1) / (x^2 + y^2 + C1)` with `C1 = (0.01)^2 = 1e-4`. -/
noncomputable def ssim_pixel (x y : ℝ × ℝ) : ℝ × ℝ :=
  dDiv (dAdd (dScale 2 (dMul x y)) (dConst 1e-4))
    (dAdd (dAdd (dMul x x) (dMul y y)) (dConst 1e-4))

/-- The `1.0 - self.ssim(...)` loss term. -/
noncomputable def ssim_loss_term (a b : ℝ × ℝ) : ℝ × ℝ :=
  dSub (dConst 1) (ssim_pixel a b)

/-- Enhanced-path reconstruction loss of the main loop:
`loss_reflectance * (1.0 - ssim_lambda) + loss_reflectance_ssim * ssim_lambda`
where `loss_reflectance = F.l1_loss(colors_enh, reflectance_target.detach())`
and `loss_reflectance_ssim = 1.0 - ssim(colors_enh, reflectance_target)` —
the source detaches the target only inside the L1 call. -/
noncomputable def loss_reconstruct_enh (colors_enh reflectance_target : ℝ × ℝ)
    (ssim_lambda : ℝ) : ℝ × ℝ :=
  dAdd (dScale (1 - ssim_lambda) (l1_loss colors_enh (detach reflectance_target)))
    (dScale ssim_lambda (ssim_loss_term colors_enh reflectance_target))

/-- Low-path reconstruction loss of the main loop:
`ssim_loss * ssim_lambda + loss_reconstruct_low * (1.0 - ssim_lambda) +
lpips_loss * 0.1`, all against the ground-truth pixels. -/
noncomputable def low_loss_main (colors_low pixels : ℝ × ℝ) (ssim_lambda : ℝ)
    (lpips_loss : ℝ × ℝ) : ℝ × ℝ :=
  dAdd (dAdd (dScale ssim_lambda (ssim_loss_term colors_low pixels))
      (dScale (1 - ssim_lambda) (l1_loss colors_low pixels)))
    (dScale 0.1 lpips_loss)

/-- Top-level mixing of the retinex-enabled main loop:
`loss = low_loss * lambda_low + loss_reconstruct_enh * (1.0 - lambda_low) +
loss_illumination * lambda_illumination`. -/
noncomputable def main_loop_loss (low enh illum : ℝ × ℝ)
    (lambda_low lambda_illumination : ℝ) : ℝ × ℝ :=
  dAdd (dAdd (dScale lambda_low low) (dScale (1 - lambda_low) enh))
    (dScale lambda_illumination illum)

/- ### Rasterization output shape: Runner.rasterize_splats and its callers -/

/-- The two shapes `rasterize_splats` can return: the 3-tuple of a single raw
rendering, or the 5-tuple of the dual path (info dictionaries elided). -/
inductive RasterOut where
  | single (colors alphas : ℝ)
  | dual (enh low alphaEnh alphaLow : ℝ)

/-- Which shape `rasterize_splats` returns: the single raw rendering exactly
when `cfg.enable_retinex` is off, the dual rendering otherwise. -/
def rasterize_splats (enableRetinex : Bool) (raw : ℝ × ℝ)
    (dual4 : ℝ × ℝ × ℝ × ℝ) : RasterOut :=
  if enableRetinex then
    RasterOut.dual dual4.1 dual4.2.1 dual4.2.2.1 dual4.2.2.2
  else
    RasterOut.single raw.1 raw.2

/-- How `Runner.train` unpacks the rasterizer output into
`(renders_enh, renders_low, alphas_enh, alphas_low)`: on the 3-tuple branch it
sets `renders_enh, alphas_enh = renders_low, alphas_low`. -/
def train_unpack : RasterOut → ℝ × ℝ × ℝ × ℝ
  | RasterOut.dual e l ae al => (e, l, ae, al)
  | RasterOut.single c a => (c, c, a, a)

/-- How `Runner.eval` unpacks the rasterizer output into
`(colors_enh, colors_low, alphas_enh, alphas_low)`: on the 3-tuple branch the
source runs `colors_enh, alphas_enh = colors_low, colors_low`, binding the
enhanced alphas to the low colors. -/
def eval_unpack : RasterOut → ℝ × ℝ × ℝ × ℝ
  | RasterOut.dual e l ae al => (e, l, ae, al)
  | RasterOut.single c a => (c, c, c, a)

/-- The loss values the non-retinex branch of `Runner.train` produces in one
step (before the depth / total-variation / regularization extras, which the
claim does not touch). -/
structure NoRetinexStepLosses where
  loss : ℝ
  low_loss : ℝ
  loss_reflectance : ℝ
  loss_illumination : ℝ
  loss_illum_color : ℝ
  loss_illum_smooth : ℝ
  loss_adaptive_curve : ℝ
  loss_illum_exposure : ℝ
  loss_illum_contrast : ℝ
  loss_illum_laplacian : ℝ

/-- The `else` branch of the main loop when `cfg.enable_retinex` is off:
`loss = f1 * (1.0 - ssim_lambda) + ssim_loss * ssim_lambda`, every
illumination loss bound to a fresh zero tensor. -/
def no_retinex_step (f1 ssim_loss ssim_lambda : ℝ) : NoRetinexStepLosses :=
  { loss := f1 * (1 - ssim_lambda) + ssim_loss * ssim_lambda
    low_loss := f1 * (1 - ssim_lambda) + ssim_loss * ssim_lambda
    loss_reflectance := f1
    loss_illumination := 0
    loss_illum_color := 0
    loss_illum_smooth := 0
    loss_adaptive_curve := 0
    loss_illum_exposure := 0
    loss_illum_contrast := 0
    loss_illum_laplacian := 0 }

/- ### Configuration enum validation -/

/-- The `init_type` branch of `create_splats_with_optimizers`. -/
def check_init_type (s : String) : Except String Unit :=
  if s = "sfm" then Except.ok ()
  else if s = "random" then Except.ok ()
  else Except.error "Please specify a correct init_type: sfm or random"

/-- The compression branch of `Runner.__init__`: `None` means no compression,
`"png"` selects PngCompression, anything else raises. -/
def select_compression (c : Option String) : Except String (Option String) :=
  match c with
  | none => Except.ok none
  | some s =>
      if s = "png" then Except.ok (some "png")
      else Except.error ("Unknown compression strategy: " ++ s)

/-- The LPIPS-backbone branch of `Runner.__init__`. -/
def check_lpips_net (s : String) : Except String Unit :=
  if s = "alex" then Except.ok ()
  else if s = "vgg" then Except.ok ()
  else Except.error ("Unknown LPIPS network: " ++ s)

/-- The trajectory-path branch of `Runner.render_traj`. -/
def check_render_traj_path (s : String) : Except String Unit :=
  if s = "interp" then Except.ok ()
  else if s = "ellipse" then Except.ok ()
  else if s = "spiral" then Except.ok ()
  else Except.error ("Render trajectory type not supported: " ++ s)

/-- A strategy object as the isinstance chain sees it: one of the two known
classes, or any other object. -/
inductive StrategyObj where
  | defaultStrategy
  | mcmc
  | other (desc : String)

/-- The call `Runner.train` makes to `step_post_backward`, recording which
variant-specific argument it passes. -/
inductive PostBackwardCall where
  | defaultCall (packed : Bool)
  | mcmcCall (lr : ℝ)

/-- The post-backward dispatch of `Runner.train`: DefaultStrategy gets
`packed=cfg.packed`, MCMCStrategy gets `lr=schedulers[0].get_last_lr()[0]`,
anything else hits `assert_never` and is fatal. -/
def strategy_post_backward_dispatch (s : StrategyObj) (packed : Bool) (lr : ℝ) :
    Except String PostBackwardCall :=
  match s with
  | StrategyObj.defaultStrategy => Except.ok (PostBackwardCall.defaultCall packed)
  | StrategyObj.mcmc => Except.ok (PostBackwardCall.mcmcCall lr)
  | StrategyObj.other d =>
      Except.error ("unreachable strategy variant: " ++ d)

/- ### Filesystem write events of Runner.train -/

/-- The filesystem writes `Runner.train` can perform: before the loop (the
config dump and the retinex pretraining phase) and in one main-loop step. -/
inductive WriteEvent where
  | cfgYaml
  | retinexTbScalars
  | tbTrainScalars
  | trainStatsJson (rank : ℕ)
  | checkpointFile (rank : ℕ)
  | plyExport
  | evalRenderImages
  | evalStatsJson
  | trajVideo
  | compressionFiles (rank : ℕ)
deriving DecidableEq

/-- The step-dependent guards of one loop iteration: whether this step is in
`save_steps` (or the last step), in `ply_steps`, in `eval_steps`, whether
`tb_every > 0 and step % tb_every == 0`, and the feature toggles. -/
structure StepFlags where
  isSaveStep : Bool
  isPlyStep : Bool
  isEvalStep : Bool
  tbActive : Bool
  savePly : Bool
  compressionEnabled : Bool
  disableVideo : Bool

/-- The tensorboard writes of one `retinex_train_step` call: scalars (and
images when `tb_save_image`) are written under `if step % self.cfg.tb_every ==
0` only — the guard tests the step counter, never the rank, so the function
takes no rank argument. -/
def retinex_train_step_writes (tbStep : Bool) : List WriteEvent :=
  if tbStep then [WriteEvent.retinexTbScalars] else []

/-- The writes of the whole `pre_train_retinex` loop, one entry of `tbSteps`
per pretraining step recording whether that step passed the `tb_every` test;
the loop performs no other filesystem write. -/
def pre_train_retinex_writes : List Bool → List WriteEvent
  | [] => []
  | b :: rest => retinex_train_step_writes b ++ pre_train_retinex_writes rest

/-- The writes before the main loop: `cfg.yml` is dumped only under
`if world_rank == 0`, then `pre_train_retinex` runs — on every rank — when
`cfg.pretrain_retinex and cfg.enable_retinex`. -/
def train_setup_writes (rank : ℕ) (pretrainRetinex enableRetinex : Bool)
    (tbSteps : List Bool) : List WriteEvent :=
  (if rank = 0 then [WriteEvent.cfgYaml] else []) ++
    (if pretrainRetinex && enableRetinex then pre_train_retinex_writes tbSteps
      else [])

/-- The writes one main-loop step performs, with each guard as the source has
it: tensorboard under `world_rank == 0 and cfg.tb_every > 0 and ...`; the
train-stats JSON and the checkpoint under the save-step test only (their
filenames embed the rank); the PLY export under the ply-step test and
`cfg.save_ply` only; the evaluation images and stats inside `eval` under
`world_rank == 0`; the trajectory video after early returns on
`disable_video` and nonzero rank; the compression artifacts in a per-rank
directory with no rank guard.  `retinex_train_step` (and its tensorboard
writes) is not called from the main loop — only from `pre_train_retinex`,
which `train_setup_writes` models. -/
def train_step_writes (rank : ℕ) (f : StepFlags) : List WriteEvent :=
  (if rank = 0 ∧ f.tbActive then [WriteEvent.tbTrainScalars] else []) ++
    (if f.isSaveStep then
      [WriteEvent.trainStatsJson rank, WriteEvent.checkpointFile rank] else []) ++
    (if f.isPlyStep ∧ f.savePly then [WriteEvent.plyExport] else []) ++
    (if f.isEvalStep ∧ rank = 0 then
      [WriteEvent.evalRenderImages, WriteEvent.evalStatsJson] else []) ++
    (if f.isEvalStep ∧ rank = 0 ∧ f.disableVideo = false then
      [WriteEvent.trajVideo] else []) ++
    (if f.compressionEnabled ∧ f.isEvalStep then
      [WriteEvent.compressionFiles rank] else [])

/- ### Helper lemmas -/

/-- A strategy mutation or optimizer step keeps parameter groups and optimizer
state aligned, at the count the operation leaves behind. -/
theorem state_aligned_applyOp {s : TrainState} {n : ℕ} (h : state_aligned s n)
    (op : TrainOp) : state_aligned (applyOp s op) (op_count n op) := by
  cases op with
  | strategyMutate m =>
      constructor
      · intro p hp
        simp only [applyOp, List.mem_map] at hp
        obtain ⟨q, _, rfl⟩ := hp
        rfl
      · intro p hp
        simp only [applyOp, List.mem_map] at hp
        obtain ⟨q, _, rfl⟩ := hp
        rfl
  | optimizerStep => exact h

/-- Alignment is preserved by any sequence of training operations. -/
theorem state_aligned_applyOps (ops : List TrainOp) :
    ∀ (s : TrainState) (n : ℕ), state_aligned s n →
      state_aligned (applyOps s ops) (gauss_count_after n ops) := by
  induction ops with
  | nil => intro s n h; exact h
  | cons op rest ih =>
      intro s n h
      exact ih (applyOp s op) (op_count n op) (state_aligned_applyOp h op)

/-- The freshly created splats and optimizers are aligned at the initial count. -/
theorem init_state_aligned (featureDim : Option ℕ) (n : ℕ) :
    state_aligned (init_train_state featureDim n) n := by
  constructor
  · intro p hp
    simp only [init_train_state, List.mem_map] at hp
    obtain ⟨g, _, rfl⟩ := hp
    rfl
  · intro p hp
    simp only [init_train_state, List.mem_map] at hp
    obtain ⟨g, _, rfl⟩ := hp
    rfl

/- ### Claim theorems -/

/-- Claim C1: for every working-color-space scalar processed by
`get_retinex_output`, `illumination_map * reflectance_map` equals the
working-color-space representation of the input exactly up to the epsilon
added inside the log; on inputs where neither the illumination floor clamp
nor the reflectance clamp triggers, the product reconstructs the input
(as `x + eps`). -/
theorem C1_reflectance_reconstruction (x eps L : ℝ)
    (hx : 0 < x + eps)
    (hfloor : 1e-5 ≤ Real.exp L)
    (hclamp : Real.exp (Real.log (x + eps) - L) ≤ 1) :
    illumination_map L * reflectance_working x eps L = x + eps := by
  unfold illumination_map reflectance_working
  rw [max_eq_left hfloor, max_eq_left (Real.exp_nonneg _), min_eq_left hclamp,
    Real.exp_sub, Real.exp_log hx, mul_comm, div_mul_cancel₀ _ (Real.exp_ne_zero L)]

/-- Witness for C1 at `x = 1`, `eps = 0`, `L = 0`: no clamp triggers and the
product reconstructs the input plus epsilon. -/
theorem C1_reflectance_reconstruction_witness :
    illumination_map 0 * reflectance_working 1 0 0 = 1 + 0 :=
  C1_reflectance_reconstruction 1 0 0 (by norm_num)
    (by rw [Real.exp_zero]; norm_num)
    (by norm_num [Real.log_one, Real.exp_zero])

/-- Claim C2: with learned-uncertainty (dynamic) weighting disabled, the total
loss of `retinex_train_step` equals the literal weighted sum of the 12
unweighted term values with the fixed-coefficient reflectance clipping
penalty added on top. -/
theorem C2_fixed_weighting_total (multiScaleRetinex : Bool)
    (lams ls lvs : Fin 12 → ℝ) (R : List ℝ) :
    retinex_total_loss false multiScaleRetinex lams ls lvs R =
      (∑ i, lams i * ls i) + (loss_clipping_high R + loss_clipping_low R) := by
  simp [retinex_total_loss, retinex_base_loss]

/-- Claim C3: with learned-uncertainty weighting selected (a static
configuration choice: `enable_dynamic_weights` together with
`multi_scale_retinex`), the loss of `retinex_train_step` before the clipping
penalty equals `Σ(w_i * l_i * exp(-v_i)/2) + Σ(v_i/2)`; the clipping penalty
is then added on top. -/
theorem C3_kendall_weighting_total (lams ls lvs : Fin 12 → ℝ) (R : List ℝ) :
    retinex_total_loss true true lams ls lvs R =
      ((∑ i, lams i * ls i * Real.exp (-(lvs i)) / 2) + ∑ i, lvs i / 2) +
        (loss_clipping_high R + loss_clipping_low R) := by
  have h2 : (∑ i : Fin 12, (0.5 : ℝ) * lvs i) = ∑ i : Fin 12, lvs i / 2 :=
    Finset.sum_congr rfl fun i _ => by ring
  simp [retinex_total_loss, retinex_base_loss, h2]

/-- Claim C4: at initialization and after any number of density-adaptation
mutation calls (interleaved with optimizer steps), every SceneState parameter
group and every optimizer's internal state buffer share the same leading
dimension, and that dimension changes only through strategy mutations — an
optimizer step appended to any operation sequence leaves the count unchanged. -/
theorem C4_group_alignment_invariant (featureDim : Option ℕ) (n : ℕ)
    (ops : List GsplatTrainer.TrainOp) :
    state_aligned (applyOps (init_train_state featureDim n) ops)
        (gauss_count_after n ops) ∧
      gauss_count_after n (ops ++ [TrainOp.optimizerStep]) =
        gauss_count_after n ops := by
  refine ⟨state_aligned_applyOps ops _ n (init_state_aligned featureDim n), ?_⟩
  simp [gauss_count_after, List.foldl_append, op_count]

/-- Claim C5: every scene parameter group's optimizer is built with learning
rate `lr * sqrt(BS)`, epsilon `1e-15 / sqrt(BS)` and betas
`(1 - BS*(1-0.9), 1 - BS*(1-0.999))` for `BS = batch_size * world_size`;
hence two configurations with equal `batch_size * world_size` get identical
hyper-parameters. -/
theorem C5_effective_batch_scaling (lr0 : ℝ) (b1 w1 b2 w2 : ℕ)
    (h : b1 * w1 = b2 * w2) :
    splats_adam_hyper lr0 b1 w1 = splats_adam_hyper lr0 b2 w2 ∧
    (splats_adam_hyper lr0 b1 w1).lr = lr0 * Real.sqrt (b1 * w1) ∧
    (splats_adam_hyper lr0 b1 w1).eps = 1e-15 / Real.sqrt (b1 * w1) ∧
    (splats_adam_hyper lr0 b1 w1).beta1 = 1 - (b1 * w1 : ℝ) * (1 - 0.9) ∧
    (splats_adam_hyper lr0 b1 w1).beta2 = 1 - (b1 * w1 : ℝ) * (1 - 0.999) := by
  have hR : ((b1 : ℝ) * w1) = (b2 : ℝ) * w2 := by exact_mod_cast h
  refine ⟨?_, rfl, rfl, rfl, rfl⟩
  simp [splats_adam_hyper, hR]

/-- Witness for C5: batch size 1 with 2 replicas and batch size 2 with 1
replica produce the same optimizer hyper-parameters. -/
theorem C5_effective_batch_scaling_witness :
    splats_adam_hyper 1 1 2 = splats_adam_hyper 1 2 1 :=
  (C5_effective_batch_scaling 1 1 2 2 1 (by norm_num)).1

/-- Counterexample to claim C6 as stated: gradient does flow from the enhanced
reconstruction loss into the reflectance target.  Seeding the target's tangent
with 1 (and the enhanced render's with 0) at `colors_enh = 0`,
`reflectance_target = 1/2`, `ssim_lambda = 1/2` yields a nonzero derivative,
because the structural-similarity term uses the non-detached target. -/
theorem C6_gradient_flows_counterexample :
    (loss_reconstruct_enh (0, 0) (1 / 2, 1) (1 / 2)).2 ≠ 0 := by
  norm_num [loss_reconstruct_enh, l1_loss, ssim_loss_term, ssim_pixel,
    dAdd, dSub, dMul, dDiv, dScale, dConst, dAbs, detach]

/-- Claim C6 (amended): in the retinex-enabled main loop, the low path is
scored against ground truth and the enhanced path against the reflectance
target, where only the pixelwise L1 term uses the detached target — no
gradient flows through that L1 term into the target (its tangent vanishes
whenever only the target is seeded) — while the structural-similarity term
uses the non-detached target; and the total loss equals
`low_loss * lambda_low + loss_reconstruct_enh * (1 - lambda_low) +
loss_illumination * lambda_illumination`. -/
theorem C6_main_loop_loss_composition (cE t low illum : ℝ × ℝ)
    (sl lamLow lamIll : ℝ) (h : cE.2 = 0) :
    (dScale (1 - sl) (l1_loss cE (detach t))).2 = 0 ∧
    (main_loop_loss low (loss_reconstruct_enh cE t sl) illum lamLow lamIll).1 =
      lamLow * low.1 + (1 - lamLow) * (loss_reconstruct_enh cE t sl).1 +
        lamIll * illum.1 := by
  constructor
  · simp [l1_loss, dScale, dAbs, dSub, detach, h]
  · simp [main_loop_loss, dAdd, dScale]

/-- Witness for C6 (amended) at concrete inputs. -/
theorem C6_main_loop_loss_composition_witness :
    (dScale (1 - (1 / 2 : ℝ)) (l1_loss ((0 : ℝ), (0 : ℝ)) (detach (1 / 2, 1)))).2 = 0 ∧
    (main_loop_loss ((1 : ℝ), (0 : ℝ))
        (loss_reconstruct_enh (0, 0) (1 / 2, 1) (1 / 2)) ((2 : ℝ), (0 : ℝ))
        (1 / 3) 5).1 =
      (1 / 3 : ℝ) * ((1 : ℝ), (0 : ℝ)).1 +
        (1 - 1 / 3) * (loss_reconstruct_enh ((0 : ℝ), (0 : ℝ)) (1 / 2, 1) (1 / 2)).1 +
        5 * ((2 : ℝ), (0 : ℝ)).1 := by
  exact C6_main_loop_loss_composition (0, 0) (1 / 2, 1) (1, 0) (2, 0) (1 / 2)
    (1 / 3) 5 rfl

/-- Counterexample to claim C7 as stated: in `Runner.eval`'s 3-tuple branch the
enhanced alphas are bound to the low colors, not the low alphas — with raw
colors 1 and raw alphas 0 the unpacked `alphas_enh` and `alphas_low` differ. -/
theorem C7_eval_alphas_counterexample :
    ¬ (eval_unpack (rasterize_splats false (1, 0) (0, 0, 0, 0))).2.2.1 =
        (eval_unpack (rasterize_splats false (1, 0) (0, 0, 0, 0))).2.2.2 := by
  norm_num [eval_unpack, rasterize_splats]

/-- Claim C7 (amended): with the retinex pipeline disabled, rasterization
returns the single raw rendering (the 3-tuple); in the training loop both
paths degenerate to it (enhanced render and alphas equal the low render and
alphas), while in evaluation the enhanced render equals the low render but
the enhanced-alphas variable is bound to the low render's colors; no
illumination losses are computed — every illumination loss term is exactly
zero — and the step loss equals
`L1 * (1 - ssim_lambda) + ssim_loss * ssim_lambda`. -/
theorem C7_retinex_disabled_degenerates (raw : ℝ × ℝ) (d4 : ℝ × ℝ × ℝ × ℝ)
    (f1 ssimv sl : ℝ) :
    rasterize_splats false raw d4 = RasterOut.single raw.1 raw.2 ∧
    train_unpack (RasterOut.single raw.1 raw.2) = (raw.1, raw.1, raw.2, raw.2) ∧
    eval_unpack (RasterOut.single raw.1 raw.2) = (raw.1, raw.1, raw.1, raw.2) ∧
    (no_retinex_step f1 ssimv sl).loss = f1 * (1 - sl) + ssimv * sl ∧
    (no_retinex_step f1 ssimv sl).loss_illumination = 0 ∧
    (no_retinex_step f1 ssimv sl).loss_illum_color = 0 ∧
    (no_retinex_step f1 ssimv sl).loss_illum_smooth = 0 ∧
    (no_retinex_step f1 ssimv sl).loss_adaptive_curve = 0 ∧
    (no_retinex_step f1 ssimv sl).loss_illum_exposure = 0 ∧
    (no_retinex_step f1 ssimv sl).loss_illum_contrast = 0 ∧
    (no_retinex_step f1 ssimv sl).loss_illum_laplacian = 0 :=
  ⟨rfl, rfl, rfl, rfl, rfl, rfl, rfl, rfl, rfl, rfl, rfl⟩

/-- Claim C8: invalid enum choices — unknown init type, compression method,
LPIPS backbone, trajectory path type — are rejected immediately with a
descriptive error, and the post-backward dispatch branches exhaustively over
{DefaultStrategy, MCMCStrategy} (passing `packed` to the former and `lr` to
the latter) while any other variant is fatal. -/
theorem C8_invalid_enums_fatal (s d : String) (pk : Bool) (lr : ℝ)
    (h1 : s ≠ "sfm") (h2 : s ≠ "random") (h3 : s ≠ "png")
    (h4 : s ≠ "alex") (h5 : s ≠ "vgg")
    (h6 : s ≠ "interp") (h7 : s ≠ "ellipse") (h8 : s ≠ "spiral") :
    check_init_type s =
        Except.error "Please specify a correct init_type: sfm or random" ∧
    select_compression (some s) =
        Except.error ("Unknown compression strategy: " ++ s) ∧
    check_lpips_net s = Except.error ("Unknown LPIPS network: " ++ s) ∧
    check_render_traj_path s =
        Except.error ("Render trajectory type not supported: " ++ s) ∧
    strategy_post_backward_dispatch StrategyObj.defaultStrategy pk lr =
        Except.ok (PostBackwardCall.defaultCall pk) ∧
    strategy_post_backward_dispatch StrategyObj.mcmc pk lr =
        Except.ok (PostBackwardCall.mcmcCall lr) ∧
    strategy_post_backward_dispatch (StrategyObj.other d) pk lr =
        Except.error ("unreachable strategy variant: " ++ d) := by
  simp [check_init_type, select_compression, check_lpips_net,
    check_render_traj_path, strategy_post_backward_dispatch,
    h1, h2, h3, h4, h5, h6, h7, h8]

/-- Witness for C8 at the unknown enum value "bogus". -/
theorem C8_invalid_enums_fatal_witness :
    check_init_type "bogus" =
        Except.error "Please specify a correct init_type: sfm or random" ∧
    select_compression (some "bogus") =
        Except.error ("Unknown compression strategy: " ++ "bogus") ∧
    check_lpips_net "bogus" = Except.error ("Unknown LPIPS network: " ++ "bogus") ∧
    check_render_traj_path "bogus" =
        Except.error ("Render trajectory type not supported: " ++ "bogus") ∧
    strategy_post_backward_dispatch StrategyObj.defaultStrategy true 0 =
        Except.ok (PostBackwardCall.defaultCall true) ∧
    strategy_post_backward_dispatch StrategyObj.mcmc true 0 =
        Except.ok (PostBackwardCall.mcmcCall 0) ∧
    strategy_post_backward_dispatch (StrategyObj.other "weird") true 0 =
        Except.error ("unreachable strategy variant: " ++ "weird") :=
  C8_invalid_enums_fatal "bogus" "weird" true 0 (by decide) (by decide)
    (by decide) (by decide) (by decide) (by decide) (by decide) (by decide)

/-- Counterexample to claim C9 as stated: a worker with rank 1 writes its
checkpoint file on a save step — the checkpoint and train-stats writes carry
no rank-zero guard in the source. -/
theorem C9_rank_one_writes_counterexample :
    WriteEvent.checkpointFile 1 ∈
      train_step_writes 1 ⟨true, false, false, false, false, false, false⟩ := by
  decide

/-- Claim C9 (amended): during training, the evaluation images and stats, the
trajectory video, the config dump and the main-loop tensorboard logs are
written only by the rank-zero worker; but every worker, regardless of rank,
writes its per-rank checkpoint, its per-rank train-stats JSON, the PLY export
and its per-rank compression artifacts at the scheduled steps, and — when the
retinex pretraining phase runs — the tensorboard scalars and images of
`retinex_train_step`, whose guard tests only the step counter.  Concretely:
a nonzero-rank worker's main-loop step writes are exactly of those four
per-rank kinds, its setup writes are exactly the pretraining tensorboard
writes (no config dump), and a `tb_every`-aligned pretraining step does
write tensorboard files. -/
theorem C9_nonzero_rank_write_kinds (rank : ℕ) (f : StepFlags)
    (pretrainRetinex enableRetinex : Bool) (tbSteps : List Bool)
    (e : WriteEvent) (h : rank ≠ 0) (he : e ∈ train_step_writes rank f) :
    (e = WriteEvent.trainStatsJson rank ∨ e = WriteEvent.checkpointFile rank ∨
      e = WriteEvent.plyExport ∨ e = WriteEvent.compressionFiles rank) ∧
    train_setup_writes rank pretrainRetinex enableRetinex tbSteps =
      (if pretrainRetinex && enableRetinex then pre_train_retinex_writes tbSteps
        else []) ∧
    retinex_train_step_writes true = [WriteEvent.retinexTbScalars] := by
  obtain ⟨s, p, ev, tb, sp, ce, dv⟩ := f
  refine ⟨?_, by simp [train_setup_writes, h], rfl⟩
  cases s <;> cases p <;> cases sp <;> cases ce <;> cases ev <;>
    simp_all [train_step_writes] <;> tauto

/-- Witness for C9 (amended): the rank-1 checkpoint write on a save step is of
one of the per-rank kinds, rank 1 performs no config dump but does perform
the pretraining tensorboard write of its one `tb_every`-aligned step. -/
theorem C9_nonzero_rank_write_kinds_witness :
    (WriteEvent.checkpointFile 1 = WriteEvent.trainStatsJson 1 ∨
      WriteEvent.checkpointFile 1 = WriteEvent.checkpointFile 1 ∨
      WriteEvent.checkpointFile 1 = WriteEvent.plyExport ∨
      WriteEvent.checkpointFile 1 = WriteEvent.compressionFiles 1) ∧
    train_setup_writes 1 true true [true] =
      (if true && true then pre_train_retinex_writes [true] else []) ∧
    retinex_train_step_writes true = [WriteEvent.retinexTbScalars] := by
  exact C9_nonzero_rank_write_kinds 1
    ⟨true, false, false, false, false, false, false⟩ true true [true]
    (WriteEvent.checkpointFile 1) (by decide) (by decide)

/-- Counterexample to claim C10 as stated: with enhancement (retinex) disabled
and appearance optimization off, the SceneState parameter dictionary built for
the Runner still contains the `adjust_k` group. -/
theorem C10_adjust_present_counterexample :
    "adjust_k" ∈ runner_splat_groups false false := by
  decide

/-- Claim C10 (amended): `create_splats_with_optimizers` appends `adjust_k`
and `adjust_b` unconditionally — they are present in SceneState, each with a
dedicated optimizer, in every mode — and rasterization reads them exactly in
the retinex-enabled branch with `use_illum_opt` off. -/
theorem C10_adjust_groups_always_present (er ao ui : Bool) :
    "adjust_k" ∈ runner_splat_groups er ao ∧
    "adjust_b" ∈ runner_splat_groups er ao ∧
    "adjust_k" ∈ splats_optimizer_names (if ao then some 32 else none) ∧
    "adjust_b" ∈ splats_optimizer_names (if ao then some 32 else none) ∧
    rasterize_uses_adjust er ui = (er && !ui) := by
  cases er <;> cases ao <;> cases ui <;> exact ⟨by decide, by decide, by decide,
    by decide, rfl⟩

end GsplatTrainer
